import Mathlib

/-!
Verification of the XML document model and client session state machine of a
board-game client (`socha-client-rust-2022`).

The development shallowly embeds the Rust sources:
* `src/util/xml.rs` — `Element`, `Element::read_from`, `Element::write_to`;
* `src/client.rs` — the handshake loop and the active event loop of
  `SCClient::run`;
* `src/protocol/event_payload.rs`, `src/protocol/player.rs`,
  `src/protocol/game_result.rs`, `src/game/state.rs`, `src/game/piece.rs`,
  `src/game/coords.rs` — the protocol codec.

The byte level is abstracted to the token level: the external XML library
(`quick_xml`) turns bytes into a stream of events; we model that stream as a
`List Token`, where the end of the list corresponds to the reader reporting
end-of-stream (`Event::Eof`).  Rust `HashMap`s are modelled as association
lists built by repeated key-replacing insertion, mirroring `HashMap::insert`
and `collect`; fallible Rust functions returning `SCResult` become `Except`.
-/

namespace Socha

/-- A low-level XML token, mirroring the `quick_xml` events that the code
matches on: `Event::Start` (element-open), `Event::End` (element-close),
`Event::Text`, and `Event::Empty` (a self-closing tag).  End-of-stream
(`Event::Eof`) is modelled by the end of the token list. -/
inductive Token where
  | start (name : String) (attrs : List (String × String))
  | close (name : String)
  | text (content : String)
  | empty (name : String) (attrs : List (String × String))
  deriving Repr, DecidableEq

/-- `Element` from `src/util/xml.rs`: a tag name, concatenated text content,
an attribute mapping and an ordered list of children.  The Rust
`HashMap<String, String>` of attributes is modelled as an association list
with unique keys (built by `insertAttr` below). -/
inductive Element where
  | mk (name : String) (content : String)
       (attrs : List (String × String)) (childs : List Element)

/-- Tag name accessor (`Element::name`). -/
def Element.name : Element → String
  | .mk n _ _ _ => n

/-- Text content accessor (`Element::content`). -/
def Element.content : Element → String
  | .mk _ c _ _ => c

/-- Attribute list accessor. -/
def Element.attrs : Element → List (String × String)
  | .mk _ _ a _ => a

/-- Child list accessor. -/
def Element.childs : Element → List Element
  | .mk _ _ _ cs => cs

/-- Key-replacing insertion into an association list; models
`HashMap::insert` (and hence `collect::<HashMap<_, _>>()`, which inserts
left to right with later duplicates overwriting earlier ones). -/
def insertAttr (m : List (String × String)) (k v : String) : List (String × String) :=
  if m.any (fun p => p.1 == k) then
    m.map (fun p => if p.1 == k then (k, v) else p)
  else
    m ++ [(k, v)]

/-- Build the attribute map of an element from the raw attribute list of a
start token, mirroring `TryFrom<&BytesStart> for Element` which collects the
token's attributes into a `HashMap`. -/
def attrMapOf (attrs : List (String × String)) : List (String × String) :=
  attrs.foldl (fun m p => insertAttr m p.1 p.2) []

/-- `HashMap::get` on the modelled attribute map. -/
def lookupAttr (m : List (String × String)) (k : String) : Option String :=
  (m.find? (fun p => p.1 == k)).map (fun p => p.2)

/-- The fresh element pushed for a start token: name from the token, empty
content, attributes collected into a map, no children
(`TryFrom<&BytesStart> for Element`). -/
def elementOfStart (n : String) (attrs : List (String × String)) : Element :=
  .mk n "" (attrMapOf attrs) []

/-- Append text to an element's content (`node.content += content`). -/
def Element.addContent (e : Element) (s : String) : Element :=
  .mk e.name (e.content ++ s) e.attrs e.childs

/-- Append a completed child to an element (`parent.childs.push(node)`). -/
def Element.addChild (e : Element) (ch : Element) : Element :=
  .mk e.name e.content e.attrs (e.childs ++ [ch])

/-- `Element::read_from` from `src/util/xml.rs`, with the explicit
`node_stack` (a `VecDeque` used as a stack; the head of the list is the top).
On `Start` a fresh node is pushed; on `End` the top is popped and either
returned (stack empty) or appended to the new top's children; on `Text` the
text is appended to the top's content (a text token outside any node is
logged and dropped); every other event — in particular `Event::Empty`, the
token a self-closing tag produces — falls into the wildcard arm `_ => ()`
and is silently skipped.  The Rust loop never terminates once the reader
only yields `Event::Eof`; over a finite token list this is modelled by
returning `none` when the list is exhausted.  On success the remaining
tokens are returned alongside the completed root, mirroring the shared
stream position. -/
def readFrom : List Token → List Element → Option (Element × List Token)
  | [], _ => none
  | Token.start n attrs :: rest, stack =>
      readFrom rest (elementOfStart n attrs :: stack)
  | Token.close _ :: rest, stack =>
      match stack with
      | [] => readFrom rest []
      | node :: stack' =>
          match stack' with
          | [] => some (node, rest)
          | parent :: stack'' => readFrom rest (parent.addChild node :: stack'')
  | Token.text s :: rest, stack =>
      match stack with
      | [] => readFrom rest []
      | node :: stack' => readFrom rest (node.addContent s :: stack')
  | Token.empty _ _ :: rest, stack => readFrom rest stack

/-- `read_document`: parse one top-level element starting with an empty
stack. -/
def readDocument (ts : List Token) : Option (Element × List Token) :=
  readFrom ts []

/-- `Element::write_to` from `src/util/xml.rs`: if the child list is empty a
single self-closing tag (`Event::Empty`) carrying the attributes is emitted —
note the Rust code tests only `self.childs.is_empty()`, not the content;
otherwise an opening tag, the content as one text event if non-empty, the
children recursively in order, and a closing tag. -/
def writeTo : Element → List Token
  | .mk n c a childs =>
    if childs.isEmpty then
      [Token.empty n a]
    else
      [Token.start n a]
        ++ (if c.isEmpty then [] else [Token.text c])
        ++ (childs.attach.map (fun x => writeTo x.1)).flatten
        ++ [Token.close n]
decreasing_by
  have := List.sizeOf_lt_of_mem x.2
  simp only [Element.mk.sizeOf_spec]
  omega

/-- The error type `SCError` from `src/util/error.rs` (the file itself is not
among the provided sources; the variants are those constructed and matched on
by the provided code: `SCError::Eof`, `SCError::InvalidState`,
`SCError::UnknownElement`, `SCError::ServerError`, the `From<String>`
conversion used by `Element::attribute`/`child_by_name`, and the conversion
of value-parse failures). -/
inductive SCError where
  | eof
  | invalidState (msg : String)
  | unknownElement (elem : Element)
  | serverError (msg : String)
  | simple (msg : String)
  | parseFailure (value : String)

/-- `Element::attribute`: look the key up in the attribute map, or fail with
the message `No attribute with key '<key>' found in <<name>>!`. -/
def Element.attributeValue (e : Element) (key : String) : Except SCError String :=
  match lookupAttr e.attrs key with
  | some v => .ok v
  | none => .error (.simple ("No attribute with key '" ++ key ++ "' found in <" ++ e.name ++ ">!"))

/-- `Element::childs_by_name`: all children with the given tag name, in
order. -/
def Element.childsByName (e : Element) (n : String) : List Element :=
  e.childs.filter (fun c => c.name == n)

/-- `Element::child_by_name`: the first child with the given tag name, or the
error `No <<n>> found in <<name>>!`. -/
def Element.childByName (e : Element) (n : String) : Except SCError Element :=
  match e.childsByName n with
  | c :: _ => .ok c
  | [] => .error (.simple ("No <" ++ n ++ "> found in <" ++ e.name ++ ">!"))

/-- The decimal value of an ASCII digit character, if it is one. -/
def digitVal (c : Char) : Option Nat :=
  let n := c.toNat
  if 48 ≤ n && n ≤ 57 then some (n - 48) else none

/-- Read a non-empty run of decimal digits; `acc` is `none` until the first
digit has been seen, so the empty string fails. -/
def natFromDigits : Option Nat → List Char → Option Nat
  | acc, [] => acc
  | acc, c :: cs =>
      match digitVal c with
      | some d => natFromDigits (some (acc.getD 0 * 10 + d)) cs
      | none => none

/-- Rust `usize::from_str`: an optional leading `+` followed by at least one
ASCII digit (the `usize` overflow bound is not modelled; no value in the
protocol approaches it). -/
def usizeFromStr (s : String) : Option Nat :=
  match s.data with
  | '+' :: cs => natFromDigits none cs
  | cs => natFromDigits none cs

/-- Rust `i32::from_str`: an optional sign followed by at least one digit
(again without the width bound). -/
def i32FromStr (s : String) : Option Int :=
  match s.data with
  | '-' :: cs => (natFromDigits none cs).map (fun n => -(n : Int))
  | '+' :: cs => (natFromDigits none cs).map (fun n => (n : Int))
  | cs => (natFromDigits none cs).map (fun n => (n : Int))

/-- Rust `bool::from_str`: exactly `true` or `false`. -/
def boolFromStr (s : String) : Option Bool :=
  if s == "true" then some true else if s == "false" then some false else none

/-- Lift an optional parse result into the strict parse-or-fail discipline:
`s.parse()?` propagates a failure as an error. -/
def parsed {α : Type} (p : String → Option α) (s : String) : Except SCError α :=
  match p s with
  | some v => .ok v
  | none => .error (.parseFailure s)

/-- Modelled from the spec: `src/game/team.rs` is not among the provided
sources.  The team enumeration with literals `ONE` and `TWO` (the fixed
external contract; the literals appear in the provided parsing tests) and an
opponent involution. -/
inductive Team where
  | one
  | two
  deriving Repr, DecidableEq

/-- The opposing team. -/
def Team.opponent : Team → Team
  | .one => .two
  | .two => .one

/-- `Team::from_str`: `ONE`/`TWO`, anything else fails. -/
def Team.fromStr (s : String) : Option Team :=
  if s == "ONE" then some .one else if s == "TWO" then some .two else none

/-- Modelled from the spec: `src/game/piece_type.rs` is not among the
provided sources.  The piece-type enumeration of the 2022 game; the literal
`Herzmuschel` appears in the provided `Piece` parsing test. -/
inductive PieceType where
  | herzmuschel
  | moewe
  | seestern
  | robbe
  deriving Repr, DecidableEq

/-- `PieceType::from_str` over the external string literals. -/
def PieceType.fromStr (s : String) : Option PieceType :=
  if s == "Herzmuschel" then some .herzmuschel
  else if s == "Moewe" then some .moewe
  else if s == "Seestern" then some .seestern
  else if s == "Robbe" then some .robbe
  else none

/-- `Coords` from `src/game/coords.rs`. -/
structure Coords where
  x : Nat
  y : Nat
  deriving Repr, DecidableEq

/-- `TryFrom<&Element> for Coords`: attributes `x` and `y`, each parsed as
`usize`, parse-or-fail. -/
def Coords.tryFrom (elem : Element) : Except SCError Coords := do
  let x ← parsed usizeFromStr (← elem.attributeValue "x")
  let y ← parsed usizeFromStr (← elem.attributeValue "y")
  return { x := x, y := y }

/-- `Piece` from `src/game/piece.rs`. -/
structure Piece where
  pieceType : PieceType
  team : Team
  count : Nat
  deriving Repr, DecidableEq

/-- `TryFrom<&Element> for Piece`: attributes `type`, `team`, `count`, each
parsed strictly. -/
def Piece.tryFrom (elem : Element) : Except SCError Piece := do
  let t ← parsed PieceType.fromStr (← elem.attributeValue "type")
  let team ← parsed Team.fromStr (← elem.attributeValue "team")
  let count ← parsed usizeFromStr (← elem.attributeValue "count")
  return { pieceType := t, team := team, count := count }

/-- Modelled from the spec: `src/game/board.rs` is not among the provided
sources (the spec treats the board as opaque payload data).  A board is the
list of occupied squares; decoding requires a `pieces` child whose `entry`
children each carry a `coordinates` and a `piece` child. -/
structure Board where
  pieces : List (Coords × Piece)
  deriving Repr, DecidableEq

/-- Modelled from the spec: decoding of the opaque board payload, strict
parse-or-fail on every entry. -/
def Board.tryFrom (elem : Element) : Except SCError Board := do
  let piecesElem ← elem.childByName "pieces"
  let entries ← (piecesElem.childsByName "entry").mapM (fun e => do
    let c ← Coords.tryFrom (← e.childByName "coordinates")
    let p ← Piece.tryFrom (← e.childByName "piece")
    return (c, p))
  return { pieces := entries }

/-- Modelled from the spec: `src/game/move.rs` is not among the provided
sources (moves are opaque payload data produced by the delegate).  A move
names a source and a destination square. -/
structure Move where
  fromPos : Coords
  toPos : Coords
  deriving Repr, DecidableEq

/-- Modelled from the spec: decoding of the opaque move payload from its
`from` and `to` children. -/
def Move.tryFrom (elem : Element) : Except SCError Move := do
  let f ← Coords.tryFrom (← elem.childByName "from")
  let t ← Coords.tryFrom (← elem.childByName "to")
  return { fromPos := f, toPos := t }

/-- `State` from `src/game/state.rs`.  The `HashMap<Team, usize>` of ambers
is modelled as an association list in decode order. -/
structure State where
  board : Board
  ambers : List (Team × Nat)
  turn : Nat
  lastMove : Option Move
  startTeam : Option Team
  deriving Repr, DecidableEq

/-- `TryFrom<&Element> for State`: requires a `board` child, an `ambers`
child (whose `entry` children each carry a `team` and an `int` child, parsed
strictly) and a `turn` attribute; `lastMove` and `startTeam` are optional
(`ok()`-converted, so their own parse failures degrade to `None`). -/
def State.tryFrom (elem : Element) : Except SCError State := do
  let board ← Board.tryFrom (← elem.childByName "board")
  let ambersElem ← elem.childByName "ambers"
  let ambers ← (ambersElem.childsByName "entry").mapM (fun e => do
    let team ← parsed Team.fromStr (← e.childByName "team").content
    let n ← parsed usizeFromStr (← e.childByName "int").content
    return (team, n))
  let turn ← parsed usizeFromStr (← elem.attributeValue "turn")
  let lastMove := (elem.childByName "lastMove").toOption.bind
    (fun m => (Move.tryFrom m).toOption)
  let startTeam := (elem.childByName "startTeam").toOption.bind
    (fun t => Team.fromStr t.content)
  return { board := board, ambers := ambers, turn := turn,
           lastMove := lastMove, startTeam := startTeam }

/-- Modelled from the spec: `State::current_team` is not among the provided
sources.  The spec requires "a derivable team to move" from the stored
state, absent exactly when no usable derivation exists; the team to move is
derived from the starting team by turn parity, and is `none` when the state
carries no starting team. -/
def State.currentTeam (s : State) : Option Team :=
  s.startTeam.map (fun t => if s.turn % 2 == 0 then t else t.opponent)

/-- `Player` from `src/protocol/player.rs`. -/
structure Player where
  name : Option String
  team : Team
  deriving Repr, DecidableEq

/-- `TryFrom<&Element> for Player`: the `name` attribute is optional
(`ok()`-converted), the `team` attribute is required and parsed strictly. -/
def Player.tryFrom (elem : Element) : Except SCError Player := do
  let name := (elem.attributeValue "name").toOption
  let team ← parsed Team.fromStr (← elem.attributeValue "team")
  return { name := name, team := team }

/-- Modelled from the spec: `src/protocol/score.rs` is not among the
provided sources.  The aggregation enumeration; the literals `SUM` and
`AVERAGE` appear in the provided `ScoreDefinition` parsing test. -/
inductive ScoreAggregation where
  | sum
  | average
  deriving Repr, DecidableEq

/-- `ScoreAggregation::from_str` over the external literals. -/
def ScoreAggregation.fromStr (s : String) : Option ScoreAggregation :=
  if s == "SUM" then some .sum
  else if s == "AVERAGE" then some .average
  else none

/-- Modelled from the spec: the score-cause enumeration; the literals
`REGULAR` and `LEFT` appear in the provided `GameResult` parsing test. -/
inductive ScoreCause where
  | regular
  | left
  | ruleViolation
  | softTimeout
  | hardTimeout
  | unknownCause
  deriving Repr, DecidableEq

/-- `ScoreCause::from_str` over the external literals. -/
def ScoreCause.fromStr (s : String) : Option ScoreCause :=
  if s == "REGULAR" then some .regular
  else if s == "LEFT" then some .left
  else if s == "RULE_VIOLATION" then some .ruleViolation
  else if s == "SOFT_TIMEOUT" then some .softTimeout
  else if s == "HARD_TIMEOUT" then some .hardTimeout
  else if s == "UNKNOWN" then some .unknownCause
  else none

/-- Modelled from the spec: a score entry — a cause, a reason text and the
per-fragment point parts (the shape used by the provided `GameResult`
parsing test: attributes `cause` and `reason`, `part` children). -/
structure Score where
  cause : ScoreCause
  reason : String
  parts : List Int
  deriving Repr, DecidableEq

/-- Modelled from the spec: decoding of a score entry, strict on `cause`,
`reason` and each `part`. -/
def Score.tryFrom (elem : Element) : Except SCError Score := do
  let cause ← parsed ScoreCause.fromStr (← elem.attributeValue "cause")
  let reason ← elem.attributeValue "reason"
  let parts ← (elem.childsByName "part").mapM (fun p => parsed i32FromStr p.content)
  return { cause := cause, reason := reason, parts := parts }

/-- Modelled from the spec: one fragment of the score definition (attribute
`name`, children `aggregation` and `relevantForRanking`, per the provided
parsing tests). -/
structure ScoreDefinitionFragment where
  name : String
  aggregation : ScoreAggregation
  relevantForRanking : Bool
  deriving Repr, DecidableEq

/-- Modelled from the spec: decoding of a score-definition fragment, strict
on every field. -/
def ScoreDefinitionFragment.tryFrom (elem : Element) : Except SCError ScoreDefinitionFragment := do
  let name ← elem.attributeValue "name"
  let agg ← parsed ScoreAggregation.fromStr (← elem.childByName "aggregation").content
  let rel ← parsed boolFromStr (← elem.childByName "relevantForRanking").content
  return { name := name, aggregation := agg, relevantForRanking := rel }

/-- `ScoreDefinition` from `src/protocol/score_definition.rs`. -/
structure ScoreDefinition where
  fragments : List ScoreDefinitionFragment
  deriving Repr, DecidableEq

/-- `TryFrom<&Element> for ScoreDefinition`: every `fragment` child decoded
strictly. -/
def ScoreDefinition.tryFrom (elem : Element) : Except SCError ScoreDefinition := do
  let fragments ← (elem.childsByName "fragment").mapM ScoreDefinitionFragment.tryFrom
  return { fragments := fragments }

/-- `GameResult` from `src/protocol/game_result.rs`.  The
`HashMap<Player, Score>` is modelled as an association list in decode
order. -/
structure GameResult where
  definition : ScoreDefinition
  scores : List (Player × Score)
  winner : Option Player
  deriving Repr, DecidableEq

/-- `TryFrom<&Element> for GameResult`: requires a `definition` child and a
`scores` child whose `entry` children each carry a `player` and a `score`
child; the `winner` child is optional and its own decode failure degrades to
`None` (`ok()`/`and_then`). -/
def GameResult.tryFrom (elem : Element) : Except SCError GameResult := do
  let definition ← ScoreDefinition.tryFrom (← elem.childByName "definition")
  let scoresElem ← elem.childByName "scores"
  let scores ← (scoresElem.childsByName "entry").mapM (fun e => do
    let player ← Player.tryFrom (← e.childByName "player")
    let score ← Score.tryFrom (← e.childByName "score")
    return (player, score))
  let winner := (elem.childByName "winner").toOption.bind
    (fun w => (Player.tryFrom w).toOption)
  return { definition := definition, scores := scores, winner := winner }

/-- `EventPayload` from `src/protocol/event_payload.rs`. -/
inductive EventPayload where
  | welcome (team : Team)
  | memento (state : State)
  | moveRequest
  | gameResult (result : GameResult)

/-- `TryFrom<&Element> for EventPayload`: dispatch on the `class`
discriminator attribute — `welcomeMessage` (the `color` attribute parsed as
a team), `memento` (the `state` child decoded), `moveRequest`, `result`
(the element itself decoded as a `GameResult`); the value `error` raises
`SCError::ServerError` with the `message` attribute; any other value raises
`SCError::UnknownElement` carrying the raw element. -/
def EventPayload.tryFrom (elem : Element) : Except SCError EventPayload := do
  let class' ← elem.attributeValue "class"
  if class' == "welcomeMessage" then
    return .welcome (← parsed Team.fromStr (← elem.attributeValue "color"))
  else if class' == "memento" then
    return .memento (← State.tryFrom (← elem.childByName "state"))
  else if class' == "moveRequest" then
    return .moveRequest
  else if class' == "result" then
    return .gameResult (← GameResult.tryFrom elem)
  else if class' == "error" then
    throw (.serverError (← elem.attributeValue "message"))
  else
    throw (.unknownElement elem)

/-- The inbound event type from `src/protocol/event.rs` (spec §3): `Joined`,
`Left` and `Room` envelopes. -/
inductive Event where
  | joined (roomId : String)
  | left (roomId : String)
  | room (roomId : String) (payload : EventPayload)

/-- Modelled from the spec: `src/protocol/event.rs` is not among the
provided sources.  Decoding dispatch is driven by the tag name for the
`Joined`/`Left`/`Room` envelopes (spec §4.3), each carrying a `roomId`
attribute, with the `Room` payload decoded from the nested `data` child; an
unrecognized tag yields the unknown-element outcome. -/
def Event.tryFrom (elem : Element) : Except SCError Event := do
  if elem.name == "joined" then
    return .joined (← elem.attributeValue "roomId")
  else if elem.name == "left" then
    return .left (← elem.attributeValue "roomId")
  else if elem.name == "room" then
    return .room (← elem.attributeValue "roomId") (← EventPayload.tryFrom (← elem.childByName "data"))
  else
    throw (.unknownElement elem)

/-- The outbound request payload (spec §3): only a move. -/
inductive RequestPayload where
  | move (m : Move)
  deriving Repr, DecidableEq

/-- The outbound request type from `src/protocol/request.rs` (spec §3). -/
inductive Request where
  | join
  | joinPrepared (reservationCode : String)
  | room (roomId : String) (payload : RequestPayload)
  deriving Repr, DecidableEq

/-- Modelled from the spec: the encoding of the opaque move payload, the
inverse shape of `Move.tryFrom`. -/
def Move.toElement (m : Move) : Element :=
  .mk "data" "" [("class", "move")]
    [.mk "from" "" [("x", toString m.fromPos.x), ("y", toString m.fromPos.y)] [],
     .mk "to" "" [("x", toString m.toPos.x), ("y", toString m.toPos.y)] []]

/-- Modelled from the spec: `From<Request> for Element` from
`src/protocol/request.rs` is not among the provided sources.  Encoding of
the closed set of outbound shapes (spec §3, §4.3): `Join`, `JoinPrepared`
with the reservation code, and `Room` wrapping the move payload under the
originating room id.  Encoding is unconditional (total). -/
def Request.toElement : Request → Element
  | .join => .mk "join" "" [] []
  | .joinPrepared code => .mk "joinPrepared" "" [("reservationCode", code)] []
  | .room roomId (.move m) => .mk "room" "" [("roomId", roomId)] [m.toElement]

/-- The handshake loop of `SCClient::run` (`src/client.rs`, "Read
<protocol>"): read events until a `Start` event named `protocol` is seen
(break), skipping `Text` events silently and every other event with a
warning; an `Eof` event — the end of the token list — raises `SCError::Eof`.
On success the remaining tokens are handed to the event loop. -/
def handshake : List Token → Except SCError (List Token)
  | [] => .error .eof
  | Token.start n _ :: rest => if n == "protocol" then .ok rest else handshake rest
  | _ :: rest => handshake rest

/-- One recorded invocation of an `SCClientDelegate` method
(`src/client.rs`): the four delegate operations. -/
inductive DelegateCall where
  | onUpdateState (state : State)
  | onGameEnd (result : GameResult) (myTeam : Team)
  | onWelcome (team : Team)
  | requestMove (state : State) (myTeam : Team)

/-- The mutable state threaded through the event loop of `SCClient::run`:
the session fields (`self.client_team`, the local `state` and `game_result`)
together with the observable traces — the delegate invocations in order and
the tokens written to the outbound writer in order. -/
structure RunState where
  clientTeam : Option Team
  state : Option State
  gameResult : Option GameResult
  calls : List DelegateCall
  writes : List Token

/-- How the event loop of `SCClient::run` relinquishes control: it breaks
out on a `Left` event, panics on the `unwrap` of an absent team, propagates
a fatal error through `?`, or — over a finite input — runs out of events
(the Rust loop would block on the next read). -/
inductive LoopResult where
  | leftRoom (st : RunState)
  | panic (st : RunState)
  | fatal (e : SCError) (st : RunState)
  | starved (st : RunState)

/-- The state carried by a loop result. -/
def LoopResult.finalState : LoopResult → RunState
  | .leftRoom st => st
  | .panic st => st
  | .fatal _ st => st
  | .starved st => st

/-- The active event loop of `SCClient::run` (`src/client.rs`, "Handle
events from the server"), processing one decoded top-level element per
iteration.  `choose` is the delegate's `request_move`.
* `Joined` is informational.
* `Left` writes the `sc.protocol.CloseConnection` self-closing element and
  the `</protocol>` close tag and breaks.
* `Room`/`Welcome` notifies the delegate, then stores the team.
* `Room`/`GameResult` unwraps the stored team — a panic when none — then
  notifies the delegate and records the result.
* `Room`/`Memento` notifies the delegate, then replaces the stored state.
* `Room`/`MoveRequest` requires a stored state and a current team (each
  absence is a fatal `SCError::InvalidState` propagated by `?`), invokes the
  delegate's move selection and immediately writes the encoded
  `Room{room_id, Move}` request before reading on.
* Every decode error (`UnknownElement`, `ServerError`, or any other) is
  logged and the loop continues. -/
def runLoop (choose : State → Team → Move) : List Element → RunState → LoopResult
  | [], st => .starved st
  | e :: rest, st =>
    match Event.tryFrom e with
    | .ok (.joined _) => runLoop choose rest st
    | .ok (.left _) =>
        .leftRoom { st with writes := st.writes ++
          [Token.empty "sc.protocol.CloseConnection" [], Token.close "protocol"] }
    | .ok (.room _ (.welcome team)) =>
        runLoop choose rest
          { st with calls := st.calls ++ [.onWelcome team], clientTeam := some team }
    | .ok (.room _ (.gameResult result)) =>
        match st.clientTeam with
        | none => .panic st
        | some t =>
            runLoop choose rest
              { st with calls := st.calls ++ [.onGameEnd result t],
                        gameResult := some result }
    | .ok (.room _ (.memento newState)) =>
        runLoop choose rest
          { st with calls := st.calls ++ [.onUpdateState newState],
                    state := some newState }
    | .ok (.room roomId .moveRequest) =>
        match st.state with
        | none => .fatal (.invalidState "No state available at move request!") st
        | some s =>
            match s.currentTeam with
            | none => .fatal (.invalidState "No team available at move request!") st
            | some team =>
                runLoop choose rest
                  { st with calls := st.calls ++ [.requestMove s team],
                            writes := st.writes ++
                              writeTo (Request.toElement (.room roomId (.move (choose s team)))) }
    | .error _ => runLoop choose rest st

/-- The session-level result of `SCClient::run` as seen by the caller. -/
inductive SessionOutcome where
  | result (r : GameResult)
  | failure (e : SCError)
  | panicked
  | starved

/-- The tail of `SCClient::run` after the loop: on a `Left` break, return
the recorded game result, or fail with
`InvalidState("Failed to receive game_result")` when none was recorded; a
fatal error or a panic ends the session with that outcome. -/
def finishLoop : LoopResult → SessionOutcome
  | .leftRoom st =>
      match st.gameResult with
      | some r => .result r
      | none => .failure (.invalidState "Failed to receive game_result")
  | .panic _ => .panicked
  | .fatal e _ => .failure e
  | .starved _ => .starved

/-- The writes `SCClient::run` performs before the handshake: the opening
(unterminated) `<protocol>` envelope tag, then the encoded join request —
`JoinPrepared` when a reservation code is configured, `Join` otherwise. -/
def initialWrites (reservation : Option String) : List Token :=
  Token.start "protocol" [] ::
    writeTo (Request.toElement (match reservation with
      | some code => .joinPrepared code
      | none => .join))

/-- The session state at the start of the event loop: no team, no state, no
result, no delegate calls yet, the initial writes already performed. -/
def initialState (reservation : Option String) : RunState :=
  { clientTeam := none, state := none, gameResult := none, calls := [],
    writes := initialWrites reservation }

/-- The whole active phase of `SCClient::run` over a list of decoded
top-level elements: the event loop from the initial state, paired with its
final observable state. -/
def runSession (choose : State → Team → Move) (reservation : Option String)
    (events : List Element) : SessionOutcome × RunState :=
  let r := runLoop choose events (initialState reservation)
  (finishLoop r, r.finalState)

/-! ### Helpers shared by the theorems -/

/-- Concatenation of a list of strings in order. -/
def concatAll : List String → String
  | [] => ""
  | s :: ss => s ++ concatAll ss

/-- Whether a decode succeeded. -/
def decodeSucceeds {α : Type} : Except SCError α → Bool
  | .ok _ => true
  | .error _ => false

/-- `Except` bind on a success reduces to the continuation. -/
theorem ok_bind {α β : Type} (a : α) (f : α → Except SCError β) :
    (Except.ok a : Except SCError α) >>= f = f a := rfl

/-- `Except` bind on an error short-circuits. -/
theorem error_bind {α β : Type} (e : SCError) (f : α → Except SCError β) :
    (Except.error e : Except SCError α) >>= f = Except.error e := rfl

/-- A bind whose continuation always fails cannot succeed. -/
theorem bind_decode_fails {α β : Type} (x : Except SCError α)
    (g : α → Except SCError β) (h : ∀ a, decodeSucceeds (g a) = false) :
    decodeSucceeds (x >>= g) = false := by
  cases x with
  | ok a => simpa [Bind.bind, Except.bind] using h a
  | error e => simp [Bind.bind, Except.bind, decodeSucceeds]

/-- Processing a run of text tokens appends their concatenation to the
content of the top-of-stack node. -/
theorem readFrom_text_run (ss : List String) (rest : List Token)
    (node : Element) (stack : List Element) :
    readFrom (ss.map Token.text ++ rest) (node :: stack) =
      readFrom rest (node.addContent (concatAll ss) :: stack) := by
  induction ss generalizing node with
  | nil =>
      cases node with
      | mk n c a cs => simp [concatAll, Element.addContent, Element.name,
          Element.content, Element.attrs, Element.childs, String.append_empty]
  | cons s ss ih =>
      cases node with
      | mk n c a cs =>
        simp only [List.map_cons, List.cons_append, readFrom, Element.addContent,
          Element.name, Element.content, Element.attrs, Element.childs,
          List.append_eq]
        rw [ih]
        simp [Element.addContent, Element.name, Element.content, Element.attrs,
          Element.childs, concatAll, String.append_assoc]

/-- Plain unfolding equation for `writeTo` (the definition uses well-founded
recursion over the nested children, so it does not reduce definitionally). -/
theorem writeTo_eq (n c : String) (a : List (String × String)) (childs : List Element) :
    writeTo (.mk n c a childs) =
      if childs.isEmpty then [Token.empty n a]
      else [Token.start n a] ++ (if c.isEmpty then [] else [Token.text c])
        ++ (childs.map writeTo).flatten ++ [Token.close n] := by
  conv_lhs => rw [writeTo]
  simp [List.attach_map_val]

/-! ### The claims -/

/-- **C1**: the round-trip property fails on the code.  `write_to` emits a
self-closing tag (`Event::Empty`) for every element without children — the
code tests only `childs.is_empty()` — while `read_from` silently skips
`Event::Empty` in its wildcard arm.  Hence re-parsing the serialization of
the childless element `<Test/>` (the element of the repository's own
`test_write`) produces no element at all (the Rust loop never terminates
once the reader is at end-of-stream), and re-parsing the serialization of
`<A><B/></A>` yields an `<A>` that has lost its child: the claimed equality
in ordered children fails. -/
theorem c1_serialize_reparse_loses_elements :
    readDocument (writeTo (Element.mk "Test" "" [] [])) = none ∧
    readDocument (writeTo (Element.mk "A" "" [] [Element.mk "B" "" [] []])) =
      some (Element.mk "A" "" [] [], []) := by
  constructor <;> simp [writeTo_eq, readDocument, readFrom, elementOfStart,
    attrMapOf, Element.addChild, Element.name, Element.content, Element.attrs,
    Element.childs]

/-- **C9**: multiple text tokens consumed while one node is in progress are
concatenated in stream order, never overwritten: parsing an element-open
token, any run of text tokens and the matching close token yields the
element whose content is the concatenation of the text tokens, with the
remaining stream untouched. -/
theorem c9_text_tokens_concatenated (n : String) (attrs : List (String × String))
    (ss : List String) (rest : List Token) :
    readDocument (Token.start n attrs :: (ss.map Token.text ++ (Token.close n :: rest))) =
      some (Element.mk n (concatAll ss) (attrMapOf attrs) [], rest) := by
  show readFrom (ss.map Token.text ++ (Token.close n :: rest)) [elementOfStart n attrs] =
    some (Element.mk n (concatAll ss) (attrMapOf attrs) [], rest)
  rw [readFrom_text_run]
  simp [readFrom, elementOfStart, Element.addContent, Element.name,
    Element.content, Element.attrs, Element.childs, String.empty_append]

/-- **C10**: an element-close token observed while the stack of in-progress
nodes is empty is logged and skipped: parsing the remaining stream is
exactly the parse without the stray token, and in particular a subsequent
well-formed document is still returned correctly. -/
theorem c10_stray_close_token_ignored (n : String) (rest : List Token) :
    readDocument (Token.close n :: rest) = readDocument rest ∧
    readDocument [Token.close "x", Token.start "a" [], Token.text "hi", Token.close "a"] =
      some (Element.mk "a" "hi" [] [], []) :=
  ⟨rfl, rfl⟩

/-- **C7**: the handshake loop skips every stray text token until an
element-open token named `protocol` arrives, and then hands exactly the
remaining tokens to the event loop (so none of the skipped text can be
misinterpreted as a game event); end-of-stream before that open token is the
fatal `SCError::Eof`. -/
theorem c7_handshake_tolerates_stray_text (ts rest : List Token)
    (attrs : List (String × String))
    (htext : ∀ t ∈ ts, ∃ s, t = Token.text s) :
    handshake (ts ++ Token.start "protocol" attrs :: rest) = .ok rest ∧
    handshake ts = .error .eof := by
  induction ts with
  | nil => exact ⟨by simp [handshake], rfl⟩
  | cons t ts ih =>
      obtain ⟨s, rfl⟩ := htext t (List.mem_cons_self t ts)
      have ih' := ih (fun u hu => htext u (List.mem_cons_of_mem _ hu))
      exact ⟨by simpa [handshake] using ih'.1, by simpa [handshake] using ih'.2⟩

/-- Witness for C7 at a concrete stream: two text tokens before the envelope
open tag are skipped, and the same two text tokens alone end in `Eof`. -/
theorem c7_witness :
    handshake ([Token.text "a", Token.text "b"] ++
        Token.start "protocol" [] :: [Token.close "q"]) = .ok [Token.close "q"] ∧
    handshake [Token.text "a", Token.text "b"] = .error .eof :=
  c7_handshake_tolerates_stray_text [Token.text "a", Token.text "b"]
    [Token.close "q"] []
    (by
      intro t ht
      simp only [List.mem_cons, List.not_mem_nil, or_false] at ht
      rcases ht with rfl | rfl
      · exact ⟨"a", rfl⟩
      · exact ⟨"b", rfl⟩)

/-- **C2**: a `MoveRequest` room payload dispatched while no game state is
stored makes the event loop stop with the fatal
`InvalidState("No state available at move request!")` — which `finishLoop`
turns into the session's failure result — and the delegate's move-selection
operation is not invoked (the call trace is unchanged). -/
theorem c2_move_request_without_state_is_fatal
    (choose : State → Team → Move) (e : Element) (roomId : String)
    (rest : List Element) (st : RunState)
    (hdecode : Event.tryFrom e = .ok (.room roomId .moveRequest))
    (hstate : st.state = none) :
    runLoop choose (e :: rest) st =
      .fatal (.invalidState "No state available at move request!") st ∧
    finishLoop (runLoop choose (e :: rest) st) =
      .failure (.invalidState "No state available at move request!") ∧
    (runLoop choose (e :: rest) st).finalState.calls = st.calls := by
  have h : runLoop choose (e :: rest) st =
      .fatal (.invalidState "No state available at move request!") st := by
    simp [runLoop, hdecode, hstate]
  exact ⟨h, by rw [h]; rfl, by rw [h]; rfl⟩

/-- A concrete `Room`/`MoveRequest` envelope element. -/
def moveRequestElem : Element :=
  .mk "room" "" [("roomId", "r1")] [.mk "data" "" [("class", "moveRequest")] []]

/-- A fixed move for concrete delegate instantiations. -/
def dummyMove : Move := { fromPos := ⟨0, 0⟩, toPos := ⟨1, 1⟩ }

/-- Witness for C2: in the fresh session state no state snapshot is stored,
and the concrete `MoveRequest` envelope makes the loop fail fatally. -/
theorem c2_witness :
    Event.tryFrom moveRequestElem = .ok (.room "r1" .moveRequest) ∧
    (initialState none).state = none ∧
    runLoop (fun _ _ => dummyMove) [moveRequestElem] (initialState none) =
      .fatal (.invalidState "No state available at move request!") (initialState none) :=
  ⟨rfl, rfl,
    (c2_move_request_without_state_is_fatal (fun _ _ => dummyMove) moveRequestElem
      "r1" [] (initialState none) rfl rfl).1⟩

/-- **C3**: a `Room` event with a `GameResult` payload dispatched while no
`Welcome` has stored a team panics (the `unwrap` of `self.client_team`)
before the delegate's game-end notification, rather than returning an error
value; when a team is stored, the handler notifies the delegate with that
team and records the result — so the game-end notification is reachable
without panic exactly when a `Welcome` was processed earlier. -/
theorem c3_game_result_before_welcome_panics
    (choose : State → Team → Move) (e : Element) (roomId : String)
    (r : GameResult) (rest : List Element) (st : RunState)
    (hdecode : Event.tryFrom e = .ok (.room roomId (.gameResult r))) :
    (st.clientTeam = none →
      runLoop choose (e :: rest) st = .panic st) ∧
    (∀ t, st.clientTeam = some t →
      runLoop choose (e :: rest) st =
        runLoop choose rest
          { st with calls := st.calls ++ [.onGameEnd r t],
                    gameResult := some r }) := by
  constructor
  · intro h; simp [runLoop, hdecode, h]
  · intro t h; simp [runLoop, hdecode, h]

/-- A concrete `Room`/`GameResult` envelope element (the shape of the
repository's own `GameResult` parsing test). -/
def gameResultElem : Element :=
  .mk "room" "" [("roomId", "r1")]
    [.mk "data" "" [("class", "result")]
      [.mk "definition" "" []
        [.mk "fragment" "" [("name", "Siegpunkte")]
          [.mk "aggregation" "SUM" [] [],
           .mk "relevantForRanking" "true" [] []]],
       .mk "scores" "" []
        [.mk "entry" "" []
          [.mk "player" "" [("name", "rad"), ("team", "ONE")] [],
           .mk "score" "" [("cause", "REGULAR"), ("reason", "")]
             [.mk "part" "2" [] []]]],
       .mk "winner" "" [("team", "ONE")] []]]

/-- The decoded value of `gameResultElem`. -/
def decodedGameResult : GameResult :=
  { definition := { fragments :=
      [{ name := "Siegpunkte", aggregation := .sum, relevantForRanking := true }] },
    scores :=
      [({ name := some "rad", team := .one },
        { cause := .regular, reason := "", parts := [2] })],
    winner := some { name := none, team := .one } }

/-- Witness for C3: in the fresh session state no team is stored, and the
concrete `GameResult` envelope makes the loop panic. -/
theorem c3_witness :
    Event.tryFrom gameResultElem = .ok (.room "r1" (.gameResult decodedGameResult)) ∧
    (initialState none).clientTeam = none ∧
    runLoop (fun _ _ => dummyMove) [gameResultElem] (initialState none) =
      .panic (initialState none) :=
  ⟨by rfl, rfl,
    (c3_game_result_before_welcome_panics (fun _ _ => dummyMove) gameResultElem
      "r1" decodedGameResult [] (initialState none) (by rfl)).1 rfl⟩

/-- **C4**: every recoverable decode failure of a top-level event leaves the
loop processing the rest of the stream with unchanged session state; and the
payload decoder produces the distinct outcomes the claim names — an
unrecognized `class` discriminator yields `UnknownElement` carrying the raw
element, and the discriminator `error` yields `ServerError` carrying the
server's `message` text. -/
theorem c4_decode_failures_do_not_terminate
    (choose : State → Team → Move) (e : Element) (err : SCError)
    (rest : List Element) (st : RunState)
    (hdecode : Event.tryFrom e = .error err) :
    runLoop choose (e :: rest) st = runLoop choose rest st ∧
    (∀ elem : Element, ∀ c : String, lookupAttr elem.attrs "class" = some c →
      c ≠ "welcomeMessage" → c ≠ "memento" → c ≠ "moveRequest" →
      c ≠ "result" → c ≠ "error" →
      EventPayload.tryFrom elem = .error (.unknownElement elem)) ∧
    (∀ elem : Element, ∀ m : String, lookupAttr elem.attrs "class" = some "error" →
      lookupAttr elem.attrs "message" = some m →
      EventPayload.tryFrom elem = .error (.serverError m)) := by
  refine ⟨by simp [runLoop, hdecode], ?_, ?_⟩
  · intro elem c hc h1 h2 h3 h4 h5
    simp [EventPayload.tryFrom, Element.attributeValue, hc, h1, h2, h3, h4, h5,
      ok_bind, throw, throwThe, MonadExceptOf.throw]
  · intro elem m hc hm
    simp [EventPayload.tryFrom, Element.attributeValue, hc, hm,
      ok_bind, throw, throwThe, MonadExceptOf.throw]

/-- Witness for C4: an envelope whose payload has the unrecognized
discriminator `bogus` decodes to `UnknownElement`, the loop on it reduces to
the loop on the rest, and the concrete unknown-discriminator and
server-error payloads produce the claimed outcomes. -/
theorem c4_witness :
    runLoop (fun _ _ => dummyMove)
        [.mk "room" "" [("roomId", "r1")] [.mk "data" "" [("class", "bogus")] []],
         moveRequestElem]
        (initialState none) =
      runLoop (fun _ _ => dummyMove) [moveRequestElem] (initialState none) ∧
    EventPayload.tryFrom (.mk "data" "" [("class", "bogus")] []) =
      .error (.unknownElement (.mk "data" "" [("class", "bogus")] [])) ∧
    EventPayload.tryFrom (.mk "data" "" [("class", "error"), ("message", "boom")] []) =
      .error (.serverError "boom") := by
  have h := c4_decode_failures_do_not_terminate (fun _ _ => dummyMove)
    (.mk "room" "" [("roomId", "r1")] [.mk "data" "" [("class", "bogus")] []])
    (.unknownElement (.mk "data" "" [("class", "bogus")] []))
    [moveRequestElem] (initialState none) rfl
  exact ⟨h.1,
    h.2.1 (.mk "data" "" [("class", "bogus")] []) "bogus" rfl
      (by decide) (by decide) (by decide) (by decide) (by decide),
    h.2.2 (.mk "data" "" [("class", "error"), ("message", "boom")] []) "boom" rfl rfl⟩

/-- **C5**: a `Left` event makes the loop write the self-closing
`sc.protocol.CloseConnection` element followed by the `</protocol>` envelope
close tag and break without touching the remaining events; the session then
returns the previously recorded game result, or fails with the distinct
`InvalidState("Failed to receive game_result")` when none was recorded. -/
theorem c5_left_event_closes_and_returns_result
    (choose : State → Team → Move) (e : Element) (roomId : String)
    (rest : List Element) (st : RunState)
    (hdecode : Event.tryFrom e = .ok (.left roomId)) :
    runLoop choose (e :: rest) st =
      .leftRoom { st with writes := st.writes ++
        [Token.empty "sc.protocol.CloseConnection" [], Token.close "protocol"] } ∧
    (∀ r, st.gameResult = some r →
      finishLoop (runLoop choose (e :: rest) st) = .result r) ∧
    (st.gameResult = none →
      finishLoop (runLoop choose (e :: rest) st) =
        .failure (.invalidState "Failed to receive game_result")) := by
  have h : runLoop choose (e :: rest) st =
      .leftRoom { st with writes := st.writes ++
        [Token.empty "sc.protocol.CloseConnection" [], Token.close "protocol"] } := by
    simp [runLoop, hdecode]
  refine ⟨h, ?_, ?_⟩
  · intro r hr; rw [h]; simp [finishLoop, hr]
  · intro hr; rw [h]; simp [finishLoop, hr]

/-- A concrete `Left` envelope element. -/
def leftElem : Element := .mk "left" "" [("roomId", "r1")] []

/-- Witness for C5, both branches: with a recorded result the session
returns it; in the fresh state (no recorded result) it fails with the
distinct no-result error; in both cases the close-connection element and the
envelope close tag are appended to the outbound stream. -/
theorem c5_witness :
    runLoop (fun _ _ => dummyMove) [leftElem, moveRequestElem] (initialState none) =
      .leftRoom { initialState none with writes := (initialState none).writes ++
        [Token.empty "sc.protocol.CloseConnection" [], Token.close "protocol"] } ∧
    finishLoop (runLoop (fun _ _ => dummyMove) [leftElem, moveRequestElem]
        (initialState none)) =
      .failure (.invalidState "Failed to receive game_result") ∧
    finishLoop (runLoop (fun _ _ => dummyMove) [leftElem]
        { initialState none with gameResult := some decodedGameResult }) =
      .result decodedGameResult := by
  have h1 := c5_left_event_closes_and_returns_result (fun _ _ => dummyMove)
    leftElem "r1" [moveRequestElem] (initialState none) rfl
  have h2 := c5_left_event_closes_and_returns_result (fun _ _ => dummyMove)
    leftElem "r1" []
    { initialState none with gameResult := some decodedGameResult } rfl
  exact ⟨h1.1, h1.2.2 rfl, h2.2.1 decodedGameResult rfl⟩

/-- **C6**: a `MoveRequest` room payload with a stored state and a derivable
team to move invokes the delegate's move selection exactly once with that
state and team, and writes exactly the encoded `Room{room_id, Move}` element
wrapping the returned move under the originating room id, before the loop
touches any further event. -/
theorem c6_move_request_calls_delegate_once
    (choose : State → Team → Move) (e : Element) (roomId : String)
    (rest : List Element) (st : RunState) (s : State) (team : Team)
    (hdecode : Event.tryFrom e = .ok (.room roomId .moveRequest))
    (hstate : st.state = some s)
    (hteam : s.currentTeam = some team) :
    runLoop choose (e :: rest) st =
      runLoop choose rest
        { st with calls := st.calls ++ [.requestMove s team],
                  writes := st.writes ++
                    writeTo (Request.toElement (.room roomId (.move (choose s team)))) } := by
  simp [runLoop, hdecode, hstate, hteam]

/-- A concrete game state whose team to move is `ONE` (turn 0, starting
team `ONE`). -/
def witnessState : State :=
  { board := { pieces := [] }, ambers := [], turn := 0,
    lastMove := none, startTeam := some .one }

/-- Witness for C6: from a session state holding `witnessState`, the
concrete `MoveRequest` envelope appends exactly one `requestMove` delegate
call with that state and team `ONE` and exactly the encoded outbound room
element, then continues with the rest of the stream. -/
theorem c6_witness :
    witnessState.currentTeam = some .one ∧
    runLoop (fun _ _ => dummyMove) [moveRequestElem]
        { initialState none with state := some witnessState } =
      runLoop (fun _ _ => dummyMove) []
        { { initialState none with state := some witnessState } with
            calls := ({ initialState none with state := some witnessState }).calls ++
              [.requestMove witnessState .one],
            writes := ({ initialState none with state := some witnessState }).writes ++
              writeTo (Request.toElement (.room "r1" (.move dummyMove))) } :=
  ⟨rfl,
    c6_move_request_calls_delegate_once (fun _ _ => dummyMove) moveRequestElem
      "r1" [] { initialState none with state := some witnessState }
      witnessState .one rfl rfl rfl⟩

/-- A `state` element with a valid board and ambers map but no `turn`
attribute. -/
def stateMissingTurnElem : Element :=
  .mk "state" "" []
    [.mk "board" "" [] [.mk "pieces" "" [] []],
     .mk "ambers" "" []
       [.mk "entry" "" [] [.mk "team" "ONE" [] [], .mk "int" "1" [] []]]]

/-- **C8**: the protocol decoders are strict: a missing required attribute
(`turn` on a state, `team` on a player) or a missing required child
(`definition` on a game result) makes the decode fail rather than fall back
to a default, an unparsable required value (a `team` attribute that is not a
team literal) fails likewise, and on concrete inputs the failure is the
distinct malformed-payload message naming the missing field. -/
theorem c8_decoding_is_strict :
    (∀ e : Element, lookupAttr e.attrs "turn" = none →
      decodeSucceeds (State.tryFrom e) = false) ∧
    (∀ e : Element, lookupAttr e.attrs "team" = none →
      decodeSucceeds (Player.tryFrom e) = false) ∧
    (∀ e : Element, ∀ v : String, lookupAttr e.attrs "team" = some v →
      Team.fromStr v = none → decodeSucceeds (Player.tryFrom e) = false) ∧
    (∀ e : Element, e.childsByName "definition" = [] →
      decodeSucceeds (GameResult.tryFrom e) = false) ∧
    State.tryFrom stateMissingTurnElem =
      .error (.simple "No attribute with key 'turn' found in <state>!") ∧
    Player.tryFrom (.mk "player" "" [] []) =
      .error (.simple "No attribute with key 'team' found in <player>!") := by
  refine ⟨?_, ?_, ?_, ?_, by rfl, by rfl⟩
  · intro e h
    unfold State.tryFrom
    apply bind_decode_fails; intro bElem
    apply bind_decode_fails; intro board
    apply bind_decode_fails; intro aElem
    apply bind_decode_fails; intro ambers
    simp [Element.attributeValue, h, error_bind, decodeSucceeds]
  · intro e h
    simp [Player.tryFrom, Element.attributeValue, h, error_bind, decodeSucceeds]
  · intro e v hv h
    simp [Player.tryFrom, Element.attributeValue, hv, ok_bind, parsed, h,
      error_bind, decodeSucceeds]
  · intro e h
    simp [GameResult.tryFrom, Element.childByName, h, error_bind, decodeSucceeds]

/-- Witness for C8: the universally quantified strictness statements applied
at concrete malformed elements. -/
theorem c8_witness :
    decodeSucceeds (State.tryFrom stateMissingTurnElem) = false ∧
    decodeSucceeds (Player.tryFrom (.mk "player" "" [] [])) = false ∧
    decodeSucceeds (Player.tryFrom (.mk "player" "" [("team", "PURPLE")] [])) = false ∧
    decodeSucceeds (GameResult.tryFrom (.mk "data" "" [("class", "result")] [])) = false :=
  ⟨c8_decoding_is_strict.1 stateMissingTurnElem rfl,
   c8_decoding_is_strict.2.1 (.mk "player" "" [] []) rfl,
   c8_decoding_is_strict.2.2.1 (.mk "player" "" [("team", "PURPLE")] []) "PURPLE" rfl rfl,
   c8_decoding_is_strict.2.2.2.1 (.mk "data" "" [("class", "result")] []) rfl⟩

end Socha
